import Mathlib

/-!
Verification of the ConstructOS (`cos`) CLI wrapper: a shallow embedding in
Lean 4 of the configuration-resolution engine (`cos_cli/config.py`), the
command-construction engine (`cos_cli/codex_runner.py`), the prompt composer
(`cos_cli/prompting.py`) and the pure fragments of the runner
(`cos_cli/parser.py`), together with theorems settling the specification
claims about those components.

Python strings are modelled as Lean `String`; Python byte strings (the ANSI
rewrite filter operates on bytes) as `List Char`.  Python `str.strip()` and
`str.lower()` are modelled by the executable `pystrip` / `pylower` below
(core `String.trim` does not reduce in the kernel).  `None`-able values are
`Option`; code that raises returns `Except String`.
-/

namespace Cos

/-- Python `str.strip()` on the character list: drop whitespace from both
ends.  `Char.isWhitespace` covers space, tab, CR and LF, which matches the
whitespace actually reaching this code path. -/
def pyStripChars (l : List Char) : List Char :=
  ((l.dropWhile Char.isWhitespace).reverse.dropWhile Char.isWhitespace).reverse

/-- Python `str.strip()`. -/
def pystrip (s : String) : String :=
  String.mk (pyStripChars s.toList)

/-- Python `str.lower()` restricted to ASCII letters; the code only lowercases
backend names, which are compared against the ASCII literals `"local"` and
`"docker"`. -/
def pyLowerChar (c : Char) : Char :=
  if 'A' ≤ c ∧ c ≤ 'Z' then Char.ofNat (c.toNat + 32) else c

/-- Python `str.lower()`. -/
def pylower (s : String) : String :=
  String.mk (s.toList.map pyLowerChar)

/-- Escape one character the way the five sequential `str.replace` passes of
`toml_quote` (codex_runner.py lines 9-18) do.  The passes commute with this
single sweep because no pass produces a character that a later pass
consumes. -/
def escTomlChar (c : Char) : List Char :=
  if c = '\\' then ['\\', '\\']
  else if c = '"' then ['\\', '"']
  else if c = '\n' then ['\\', 'n']
  else if c = '\r' then ['\\', 'r']
  else if c = '\t' then ['\\', 't']
  else [c]

/-- `toml_quote` (codex_runner.py lines 9-18): escape backslash, double quote,
newline, carriage return and tab, then wrap the result in double quotes. -/
def toml_quote (value : String) : String :=
  ("\"") ++ String.mk (value.toList.flatMap escTomlChar) ++ ("\"")

/-- One character of `MCP_SERVER_NAME_PATTERN` / `SESSION_ID_PATTERN`:
`[a-zA-Z0-9_-]`. -/
def isMcpNameChar (c : Char) : Bool :=
  (('a' ≤ c) && (c ≤ 'z')) || (('A' ≤ c) && (c ≤ 'Z')) ||
  (('0' ≤ c) && (c ≤ '9')) || c = '_' || c = '-'

/-- `MCP_SERVER_NAME_PATTERN.fullmatch`, i.e. `^[a-zA-Z0-9_-]+$`: non-empty
and every character in the class. -/
def mcpNameFullmatch (s : String) : Bool :=
  (!s.toList.isEmpty) && s.toList.all isMcpNameChar

/-- `validate_mcp_server_name` (codex_runner.py lines 25-33): trim; the empty
name passes through; otherwise the full pattern must match or a
`RuntimeError` is raised. -/
def validate_mcp_server_name (name : String) : Except String String :=
  let value := pystrip name
  if value = ("") then .ok value
  else if !mcpNameFullmatch value then
    .error (("Invalid MCP server name ") ++ value ++ (": must match pattern ^[a-zA-Z0-9_-]+$"))
  else .ok value

/-- The argument namespace handed to the command builder: the fields of the
`SimpleNamespace` built in `parser.py` `_run_codex` (lines 340-363). -/
structure Args where
  command : String
  repo : String
  model : String
  sandbox : String
  approval : String
  dangerous : Bool
  search : Bool
  json : Bool
  skip_git_repo_check : Bool
  resume_session_id : String
  resume_last : Bool
  resume_all : Bool
  codex_backend : String
  docker_container : String
  docker_workdir : String
  docker_codex_binary : String
  docker_home : String
  interactive_tty : Bool
  no_app_mcp : Bool
  app_mcp_name : String
  app_mcp_url : String
  app_mcp_bearer_env : String

/-- The MCP-injection block of `_build_inner_codex_command` (codex_runner.py
lines 185-207), factored out: when injection is enabled, validate the server
name (propagating its `RuntimeError`), and when both trimmed name and
trimmed URL are non-empty append the url/enabled `-c` pairs and, for a
non-empty bearer environment-variable name, the bearer `-c` pair. -/
def mcpInjectStep (args : Args) (cmd : List String) : Except String (List String) :=
  if !args.no_app_mcp then
    match validate_mcp_server_name args.app_mcp_name with
    | .error e => .error e
    | .ok mcp_name =>
      let mcp_url := pystrip args.app_mcp_url
      if mcp_name ≠ ("") ∧ mcp_url ≠ ("") then
        let cmd := cmd ++
          [("-c"), ("mcp_servers.") ++ mcp_name ++ (".url=") ++ toml_quote mcp_url,
           ("-c"), ("mcp_servers.") ++ mcp_name ++ (".enabled=true")]
        let token_env := pystrip args.app_mcp_bearer_env
        if token_env ≠ ("") then
          .ok (cmd ++
            [("-c"), ("mcp_servers.") ++ mcp_name ++ (".bearer_token_env_var=") ++ toml_quote token_env])
        else .ok cmd
      else .ok cmd
  else .ok cmd

/-- `_build_inner_codex_command` (codex_runner.py lines 138-214), translated
statement by statement: the imperative `cmd` list is threaded through `let`
bindings, and each `raise` becomes an `Except.error`. -/
def build_inner_codex_command (args : Args) (user_prompt : String)
    (passthrough : List String) : Except String (List String) :=
  let backend := pylower (pystrip args.codex_backend)
  let codex_binary :=
    if backend = ("docker") then
      (if pystrip args.docker_codex_binary = ("") then ("codex")
       else pystrip args.docker_codex_binary)
    else ("codex")
  let base : Except String (List String) :=
    if args.command = ("chat") then .ok [codex_binary]
    else if args.command = ("exec") then .ok [codex_binary, ("exec")]
    else if args.command = ("resume") then .ok [codex_binary, ("resume")]
    else .error (("Unsupported command: ") ++ args.command)
  match base with
  | .error e => .error e
  | .ok cmd =>
    let repo := pystrip args.repo
    let cmd := if repo ≠ ("") then cmd ++ [("--cd"), repo] else cmd
    let model := pystrip args.model
    let cmd := if model ≠ ("") then cmd ++ [("-m"), model] else cmd
    let cmd := cmd ++ [("--sandbox"), args.sandbox]
    let cmd :=
      if args.command = ("chat") ∨ args.command = ("resume") then
        cmd ++ [("--ask-for-approval"), args.approval]
      else cmd
    let cmd := if args.dangerous then cmd ++ [("--dangerously-bypass-approvals-and-sandbox")] else cmd
    let cmd :=
      if (args.command = ("chat") ∨ args.command = ("resume")) ∧ args.search then
        cmd ++ [("--search")]
      else cmd
    let cmd :=
      if args.command = ("exec") then
        let cmd := if args.json then cmd ++ [("--json")] else cmd
        if args.skip_git_repo_check then cmd ++ [("--skip-git-repo-check")] else cmd
      else if args.command = ("resume") then
        let cmd := if args.resume_last then cmd ++ [("--last")] else cmd
        let cmd := if args.resume_all then cmd ++ [("--all")] else cmd
        let session_id := pystrip args.resume_session_id
        if session_id ≠ ("") then cmd ++ [session_id] else cmd
      else cmd
    match mcpInjectStep args cmd with
    | .error e => .error e
    | .ok cmd =>
      let cmd := cmd ++ passthrough
      let cmd := if pystrip user_prompt ≠ ("") then cmd ++ [pystrip user_prompt] else cmd
      .ok cmd

/-- `_wrap_with_docker_exec` (codex_runner.py lines 217-240). -/
def wrap_with_docker_exec (args : Args) (cmd : List String) : Except String (List String) :=
  let container := pystrip args.docker_container
  if container = ("") then
    .error ("Docker backend requires a non-empty docker container name.")
  else
    let docker_cmd : List String := [("docker"), ("exec"), ("-i")]
    let step : Except String (List String) :=
      if args.command = ("chat") ∨ args.command = ("resume") then
        if !args.interactive_tty then
          .error ("`cos chat` and `cos resume` in docker backend require an interactive TTY terminal.")
        else .ok (docker_cmd ++ [("-t")])
      else .ok docker_cmd
    match step with
    | .error e => .error e
    | .ok docker_cmd =>
      let docker_home := pystrip args.docker_home
      let docker_cmd := if docker_home ≠ ("") then docker_cmd ++ [("-e"), ("HOME=") ++ docker_home] else docker_cmd
      let docker_workdir := pystrip args.docker_workdir
      let docker_cmd := if docker_workdir ≠ ("") then docker_cmd ++ [("-w"), docker_workdir] else docker_cmd
      .ok (docker_cmd ++ [container] ++ cmd)

/-- `build_codex_command` (codex_runner.py lines 243-251). -/
def build_codex_command (args : Args) (user_prompt : String)
    (passthrough : List String) : Except String (List String) :=
  match build_inner_codex_command args user_prompt passthrough with
  | .error e => .error e
  | .ok cmd =>
    let backend := pylower (pystrip args.codex_backend)
    if backend = ("local") then .ok cmd
    else if backend = ("docker") then wrap_with_docker_exec args cmd
    else .error ("Unsupported codex backend. Allowed: local, docker.")

/-- `_normalize_passthrough` (parser.py lines 85-89): strip one leading
`"--"` separator. -/
def normalize_passthrough (ctxArgs : List String) : List String :=
  if ctxArgs.take 1 = [("--")] then ctxArgs.drop 1 else ctxArgs

/-- Whether an `Except` result is an error; used to state failure facts. -/
def isError {α : Type} (r : Except String α) : Bool :=
  match r with
  | .error _ => true
  | .ok _ => false

/-- Item 1-2 of the spec's construction-order contract: the base binary name
(the configured in-container binary under the docker backend, else the agent
binary name) followed by the subcommand token, none for `chat`. -/
def innerBinarySegment (args : Args) : List String :=
  let binary :=
    if pylower (pystrip args.codex_backend) = ("docker") then
      (if pystrip args.docker_codex_binary = ("") then ("codex")
       else pystrip args.docker_codex_binary)
    else ("codex")
  if args.command = ("chat") then [binary]
  else if args.command = ("exec") then [binary, ("exec")]
  else [binary, ("resume")]

/-- Item 11 of the spec's construction-order contract: the MCP injection
block — skipped entirely when disabled or when the trimmed name or URL is
empty, otherwise two `-c key=value` pairs (url, enabled) and a third
bearer-token pair exactly when a bearer environment-variable name is
configured. -/
def mcpSegment (args : Args) : List String :=
  if args.no_app_mcp then [] else
  let name := pystrip args.app_mcp_name
  let url := pystrip args.app_mcp_url
  if name ≠ ("") ∧ url ≠ ("") then
    [("-c"), ("mcp_servers.") ++ name ++ (".url=") ++ toml_quote url,
     ("-c"), ("mcp_servers.") ++ name ++ (".enabled=true")]
    ++ (if pystrip args.app_mcp_bearer_env ≠ ("") then
          [("-c"), ("mcp_servers.") ++ name ++ (".bearer_token_env_var=") ++
            toml_quote (pystrip args.app_mcp_bearer_env)]
        else [])
  else []

/-- The full argument-vector layout stated by the spec's construction-order
contract (spec section 4.3, items 1-13), as one concatenation of independent
segments. -/
def innerCommandSpec (args : Args) (user_prompt : String)
    (passthrough : List String) : List String :=
  innerBinarySegment args
  ++ (if pystrip args.repo ≠ ("") then [("--cd"), pystrip args.repo] else [])
  ++ (if pystrip args.model ≠ ("") then [("-m"), pystrip args.model] else [])
  ++ [("--sandbox"), args.sandbox]
  ++ (if args.command = ("chat") ∨ args.command = ("resume") then
        [("--ask-for-approval"), args.approval] else [])
  ++ (if args.dangerous then [("--dangerously-bypass-approvals-and-sandbox")] else [])
  ++ (if (args.command = ("chat") ∨ args.command = ("resume")) ∧ args.search then
        [("--search")] else [])
  ++ (if args.command = ("exec") then
        (if args.json then [("--json")] else [])
        ++ (if args.skip_git_repo_check then [("--skip-git-repo-check")] else [])
      else [])
  ++ (if args.command = ("resume") then
        (if args.resume_last then [("--last")] else [])
        ++ (if args.resume_all then [("--all")] else [])
        ++ (if pystrip args.resume_session_id ≠ ("") then [pystrip args.resume_session_id] else [])
      else [])
  ++ mcpSegment args
  ++ passthrough
  ++ (if pystrip user_prompt ≠ ("") then [pystrip user_prompt] else [])

/-- The spec's container-wrapping layout (spec section 4.3): `docker exec -i
[-t if chat/resume] [-e HOME=<override> if set] [-w <workdir> if set]
<container> <inner command...>`. -/
def dockerWrapSpec (args : Args) (inner : List String) : List String :=
  [("docker"), ("exec"), ("-i")]
  ++ (if args.command = ("chat") ∨ args.command = ("resume") then [("-t")] else [])
  ++ (if pystrip args.docker_home ≠ ("") then [("-e"), ("HOME=") ++ pystrip args.docker_home] else [])
  ++ (if pystrip args.docker_workdir ≠ ("") then [("-w"), pystrip args.docker_workdir] else [])
  ++ [pystrip args.docker_container]
  ++ inner

/-- `compose_prompt` (prompting.py lines 53-57). -/
def compose_prompt (hidden_instruction user_prompt : String) : String :=
  let user_text := pystrip user_prompt
  if user_text = ("") then hidden_instruction
  else pystrip (hidden_instruction ++ ("\n\nUser request:\n") ++ user_text)

/-- `resolve_user_prompt` (prompting.py lines 16-20), with the standard-input
contents passed in explicitly: `"-"` selects (trimmed) stdin when allowed,
anything else is returned trimmed. -/
def resolve_user_prompt (raw_prompt : String) (stdin_text : String)
    (allow_stdin : Bool) : String :=
  if raw_prompt = ("-") ∧ allow_stdin then pystrip stdin_text
  else pystrip raw_prompt

/-- The prompt-wrapping branch of `_run_codex` (parser.py lines 310-321):
`resume` forwards the resolved user prompt unchanged, every other command
composes the hidden instruction with it. -/
def wrappedPrompt (command : String) (user_prompt hidden_instruction : String) : String :=
  if command = ("resume") then user_prompt
  else compose_prompt hidden_instruction user_prompt

/-- The skip-git-repo-check override of `_run_codex` (parser.py lines
323-325): forced on for `exec` under the docker backend. -/
def effective_skip_git_repo_check (command codex_backend : String)
    (skip_git_repo_check : Bool) : Bool :=
  if command = ("exec") ∧ pylower (pystrip codex_backend) = ("docker") then true
  else skip_git_repo_check

/-- Pointwise update of a string-keyed map, the model of one Python dict
assignment `d[key] = v`. -/
def updateMap (f : String → String) (key v : String) : String → String :=
  fun k => if k = key then v else f k

/-- `_resolved_values_with_backend_defaults` (parser.py lines 104-117): under
the docker backend, `app_mcp_url` falls back to the docker MCP URL when its
provenance is `default`, and `repo` falls back to the docker workdir when its
provenance is `default` and its value is still empty. -/
def resolved_values_with_backend_defaults (values sources : String → String) :
    String → String :=
  let backend := pylower (pystrip (values ("codex_backend")))
  if backend ≠ ("docker") then values
  else
    let values1 :=
      if sources ("app_mcp_url") = ("default") then
        updateMap values ("app_mcp_url") (pystrip (values ("docker_app_mcp_url")))
      else values
    if sources ("repo") = ("default") ∧ pystrip (values1 ("repo")) = ("") then
      updateMap values1 ("repo") (pystrip (values1 ("docker_workdir")))
    else values1

/-- The known configuration keys, in the insertion order of the `DEFAULTS`
dict (config.py lines 31-47). -/
def CONFIG_KEYS_LIST : List String :=
  [("repo"), ("model"), ("sandbox"), ("approval"), ("terminal_theme"),
   ("codex_backend"), ("docker_container"), ("docker_workdir"),
   ("docker_codex_binary"), ("docker_app_mcp_url"), ("docker_codex_home_root"),
   ("app_mcp_name"), ("app_mcp_url"), ("app_mcp_bearer_env"), ("system_prompt_file")]

/-- The `DEFAULTS` dict (config.py lines 31-47) as a function; keys outside
the known set are irrelevant (the Python dict has no such entries). -/
def DEFAULTS : String → String
  | "sandbox" => "workspace-write"
  | "approval" => "on-request"
  | "terminal_theme" => "green"
  | "codex_backend" => "docker"
  | "docker_container" => "task-app"
  | "docker_workdir" => "/app"
  | "docker_codex_binary" => "codex"
  | "docker_app_mcp_url" => "http://mcp-tools:8090/mcp"
  | "docker_codex_home_root" => "/home/app/codex-home/workspace"
  | "app_mcp_name" => "task-management-tools"
  | "app_mcp_url" => "http://localhost:8091/mcp"
  | "system_prompt_file" => "~/.cos/system.md"
  | _ => ""

/-- The `ENV_VAR_MAP` dict (config.py lines 49-65) as a function from config
key to environment-variable name. -/
def ENV_VAR_MAP : String → String
  | "repo" => "COS_REPO"
  | "model" => "COS_MODEL"
  | "sandbox" => "COS_SANDBOX"
  | "approval" => "COS_APPROVAL"
  | "terminal_theme" => "COS_TERMINAL_THEME"
  | "codex_backend" => "COS_CODEX_BACKEND"
  | "docker_container" => "COS_DOCKER_CONTAINER"
  | "docker_workdir" => "COS_DOCKER_WORKDIR"
  | "docker_codex_binary" => "COS_DOCKER_CODEX_BINARY"
  | "docker_app_mcp_url" => "COS_DOCKER_APP_MCP_URL"
  | "docker_codex_home_root" => "COS_DOCKER_CODEX_HOME_ROOT"
  | "app_mcp_name" => "COS_APP_MCP_NAME"
  | "app_mcp_url" => "COS_APP_MCP_URL"
  | "app_mcp_bearer_env" => "COS_APP_MCP_BEARER_ENV"
  | "system_prompt_file" => "COS_SYSTEM_PROMPT_FILE"
  | _ => ""

/-- `VALID_SANDBOX` (config.py line 26). -/
def VALID_SANDBOX : List String := [("read-only"), ("workspace-write"), ("danger-full-access")]

/-- `VALID_APPROVAL` (config.py line 27). -/
def VALID_APPROVAL : List String := [("untrusted"), ("on-request"), ("never")]

/-- `VALID_TERMINAL_THEME` (config.py line 28). -/
def VALID_TERMINAL_THEME : List String := [("default"), ("green")]

/-- `VALID_CODEX_BACKEND` (config.py line 29). -/
def VALID_CODEX_BACKEND : List String := [("local"), ("docker")]

/-- `_validate_value` (config.py lines 90-104): strip the value, then reject
values outside the enumerated set for the four enumerated keys.  Error
messages are abbreviated; only their occurrence matters here. -/
def validate_value (key value source : String) : Except String String :=
  let text_value := pystrip value
  if key = ("sandbox") ∧ text_value ∉ VALID_SANDBOX then
    .error (source ++ (": invalid value for sandbox"))
  else if key = ("approval") ∧ text_value ∉ VALID_APPROVAL then
    .error (source ++ (": invalid value for approval"))
  else if key = ("terminal_theme") ∧ text_value ∉ VALID_TERMINAL_THEME then
    .error (source ++ (": invalid value for terminal_theme"))
  else if key = ("codex_backend") ∧ text_value ∉ VALID_CODEX_BACKEND then
    .error (source ++ (": invalid value for codex_backend"))
  else .ok text_value

/-- The two parallel dicts built by `resolve_effective_config`: values and
per-key provenance tags. -/
structure ResolvedMaps where
  values : String → String
  sources : String → String

/-- One file layer of `resolve_effective_config` (config.py lines 163-168):
iterate over the parsed file's items, overwriting value and provenance.  The
pairs are the output of `_load_config_file`, already validated and restricted
to known keys. -/
def applyFileLayer (tag : String) (pairs : List (String × String))
    (m : ResolvedMaps) : ResolvedMaps :=
  pairs.foldl
    (fun acc kv => ⟨updateMap acc.values kv.1 kv.2, updateMap acc.sources kv.1 tag⟩) m

/-- One iteration of the environment loop of `resolve_effective_config`
(config.py lines 170-175): read the mapped environment variable through
`getenv` (empty string when unset), strip it, skip it when empty, otherwise
validate and overwrite value and provenance. -/
def envStep (getenv : String → String) (acc : ResolvedMaps) (key : String) :
    Except String ResolvedMaps :=
  let env_value := pystrip (getenv (ENV_VAR_MAP key))
  if env_value = ("") then .ok acc
  else
    match validate_value key env_value (("environment variable ") ++ ENV_VAR_MAP key) with
    | .error e => .error e
    | .ok v => .ok ⟨updateMap acc.values key v, updateMap acc.sources key ("env")⟩

/-- The environment layer: iterate `envStep` over the keys of `ENV_VAR_MAP`
in insertion order. -/
def applyEnvLayer (getenv : String → String) (m : ResolvedMaps) :
    Except String ResolvedMaps :=
  CONFIG_KEYS_LIST.foldlM (envStep getenv) m

/-- One iteration of the CLI loop of `resolve_effective_config` (config.py
lines 177-181): skip unknown keys and `None` values, validate everything
else and overwrite value and provenance. -/
def cliStep (acc : ResolvedMaps) (kv : String × Option String) :
    Except String ResolvedMaps :=
  if kv.1 ∉ CONFIG_KEYS_LIST then .ok acc
  else
    match kv.2 with
    | none => .ok acc
    | some raw_value =>
      match validate_value kv.1 raw_value ("CLI option") with
      | .error e => .error e
      | .ok v => .ok ⟨updateMap acc.values kv.1 v, updateMap acc.sources kv.1 ("cli")⟩

/-- The CLI layer: iterate `cliStep` over the overrides dict. -/
def applyCliLayer (overrides : List (String × Option String)) (m : ResolvedMaps) :
    Except String ResolvedMaps :=
  overrides.foldlM cliStep m

/-- `resolve_effective_config` (config.py lines 151-190) on the already
parsed file layers: file reading and TOML parsing are external I/O, so the
two file dicts (outputs of `_load_existing_config_file`, validated and
restricted to known keys) and `os.getenv` enter as parameters; `overrides`
is the CLI dict with `None` for options the user did not pass. -/
def resolve_effective_config (globalValues localValues : List (String × String))
    (getenv : String → String) (overrides : List (String × Option String)) :
    Except String ResolvedMaps :=
  let m : ResolvedMaps := ⟨DEFAULTS, fun _ => ("default")⟩
  let m := applyFileLayer ("global_config") globalValues m
  let m := applyFileLayer ("local_config") localValues m
  match applyEnvLayer getenv m with
  | .error e => .error e
  | .ok m => applyCliLayer overrides m

/-- First-match association lookup; with distinct keys (Python dicts) it is
the dict lookup. -/
def lookupKey {β : Type} (k : String) : List (String × β) → Option β
  | [] => none
  | kv :: t => if k = kv.1 then some kv.2 else lookupKey k t

/-- Per-key outcome of the default, file and environment layers: the
environment variable wins when non-empty after stripping (its stored value
is the validated, i.e. stripped-again, text), else the local file, else the
global file, else the default. -/
def envFileOutcome (globalValues localValues : List (String × String))
    (getenv : String → String) (k : String) : String × String :=
  if pystrip (getenv (ENV_VAR_MAP k)) ≠ ("") then
    (pystrip (pystrip (getenv (ENV_VAR_MAP k))), ("env"))
  else
    match lookupKey k localValues with
    | some v => (v, ("local_config"))
    | none =>
      match lookupKey k globalValues with
      | some v => (v, ("global_config"))
      | none => (DEFAULTS k, ("default"))

/-- Per-key outcome of the full merge as the code performs it: a CLI value
that is present (not `None`) always wins — even when empty — and stores its
stripped text with provenance `cli`. -/
def mergedOutcome (globalValues localValues : List (String × String))
    (getenv : String → String) (overrides : List (String × Option String))
    (k : String) : String × String :=
  match lookupKey k overrides with
  | some (some x) => (pystrip x, ("cli"))
  | _ => envFileOutcome globalValues localValues getenv k

/-- Per-key outcome of the merge exactly as the claim states it — a
refinement spec written from the claim's words, to compare with
`resolve_effective_config`: a CLI value that is empty after trimming does
not override. -/
def claimMergedOutcome (globalValues localValues : List (String × String))
    (getenv : String → String) (overrides : List (String × Option String))
    (k : String) : String × String :=
  match lookupKey k overrides with
  | some (some x) =>
    if pystrip x ≠ ("") then (pystrip x, ("cli"))
    else envFileOutcome globalValues localValues getenv k
  | _ => envFileOutcome globalValues localValues getenv k

/-- One byte of the `_SGR_PATTERN` parameter class `[0-9;]` (parser.py line
53). -/
def isSgrParamChar (c : Char) : Bool :=
  (('0' ≤ c) && (c ≤ '9')) || c = ';'

/-- The fixed set-foreground-bright-green sequence `_GREEN_SGR` (parser.py
line 54), `ESC[32m`. -/
def GREEN_SGR : List Char := ['\x1b', '[', '3', '2', 'm']

/-- Python `params.split(';')` on the parameter bytes: split at every
semicolon, keeping empty segments (so the empty input yields one empty
segment). -/
def splitSemis : List Char → List (List Char)
  | [] => [[]]
  | c :: t =>
    if c = ';' then [] :: splitSemis t
    else
      match splitSemis t with
      | [] => [[c]]
      | h :: r => (c :: h) :: r

/-- The replacement decision of `_apply_green_theme_to_chunk`'s `_replace`
(parser.py lines 138-145): append the green sequence when the parameter list
has no non-empty part, or when some part is one of `0`, `39`, `37`, `97`. -/
def shouldRecolor (params : List Char) : Bool :=
  let parts := (splitSemis params).filter (fun p => !p.isEmpty)
  parts.isEmpty ||
    parts.any (fun p =>
      String.mk p = ("0") ∨ String.mk p = ("39") ∨ String.mk p = ("37") ∨ String.mk p = ("97"))

/-- `_apply_green_theme_to_chunk` (parser.py lines 137-147), recursion
worker: scan the byte stream for `ESC [ <params> m` with `<params>` a
maximal run of `[0-9;]` — exactly the matches of the regex
`\x1b\[([0-9;]*)m`, found left to right and non-overlapping — insert
`GREEN_SGR` after each match whose parameters qualify, and copy every other
byte unchanged.  The scan recurses on the suffix after each match, which is
not structural; the fuel argument, always instantiated above the input
length, makes it structural. -/
def applyGreenAux : Nat → List Char → List Char
  | 0, l => l
  | fuel + 1, l =>
    match l with
    | [] => []
    | c :: rest =>
      match rest with
      | [] => c :: applyGreenAux fuel []
      | c2 :: rest2 =>
        if c = '\x1b' ∧ c2 = '[' then
          match rest2.dropWhile isSgrParamChar with
          | 'm' :: tail =>
            c :: c2 ::
              (rest2.takeWhile isSgrParamChar ++ 'm' ::
                ((if shouldRecolor (rest2.takeWhile isSgrParamChar) then GREEN_SGR else []) ++
                  applyGreenAux fuel tail))
          | _ => c :: applyGreenAux fuel rest
        else c :: applyGreenAux fuel rest

/-- `_apply_green_theme_to_chunk` (parser.py lines 137-147). -/
def apply_green_theme_to_chunk (data : List Char) : List Char :=
  applyGreenAux (data.length + 1) data

/-- A lexical token of the filter's view of the stream: a matched SGR escape
sequence with its parameter bytes, or one unmatched byte. -/
inductive AnsiToken where
  | sgr (params : List Char)
  | other (c : Char)
deriving DecidableEq

/-- The original bytes of a token. -/
def tokenText : AnsiToken → List Char
  | .sgr params => '\x1b' :: '[' :: params ++ ['m']
  | .other c => [c]

/-- The spec\'s rewrite of a token: a matched SGR sequence is kept and, when
its parameter list is empty or mentions `0`, `39`, `37` or `97`, immediately
followed by the fixed bright-green sequence; every other byte is unchanged. -/
def tokenRendered (t : AnsiToken) : List Char :=
  match t with
  | .sgr params => tokenText t ++ (if shouldRecolor params then GREEN_SGR else [])
  | .other c => [c]

/-- Tokenization of a byte stream into matched SGR sequences and unmatched
bytes, with the same left-to-right maximal-munch scan (and the same fuel
device) as `applyGreenAux`. -/
def ansiTokensAux : Nat → List Char → List AnsiToken
  | 0, _ => []
  | fuel + 1, l =>
    match l with
    | [] => []
    | c :: rest =>
      match rest with
      | [] => .other c :: ansiTokensAux fuel []
      | c2 :: rest2 =>
        if c = '\x1b' ∧ c2 = '[' then
          match rest2.dropWhile isSgrParamChar with
          | 'm' :: tail => .sgr (rest2.takeWhile isSgrParamChar) :: ansiTokensAux fuel tail
          | _ => .other c :: ansiTokensAux fuel rest
        else .other c :: ansiTokensAux fuel rest

/-- Tokenization of a byte stream. -/
def ansiTokens (data : List Char) : List AnsiToken :=
  ansiTokensAux (data.length + 1) data

/-- Modelled from the spec: the "receiving TOML parser" of the round-trip
property is the agent's own configuration parser, external to this
repository, so it is modelled from the TOML v1.0 basic-string grammar.  A
character may appear unescaped in a basic string when it is a tab or any
scalar from `0x20` upwards other than `"` (0x22), `\` (0x5C) and delete
(0x7F); all other control characters must use an escape sequence. -/
def basicUnescaped (c : Char) : Bool :=
  c = '\t' ||
    ((0x20 ≤ c.toNat) && (c.toNat ≠ 0x7f) && !(c = '"') && !(c = '\\'))

/-- Modelled from the spec: the body of a TOML v1.0 basic string, consumed up
to and including the closing quote; returns the decoded content and the
remaining input.  The escape sequences `\b \t \n \f \r \" \\` are decoded;
`\uXXXX`/`\UXXXXXXXX` are not modelled (the quoter never emits them) and
make the parse fail, as does any unescaped control character. -/
def parseBasicStringBody : List Char → Option (List Char × List Char)
  | [] => none
  | c :: rest =>
    if c = '"' then some ([], rest)
    else if c = '\\' then
      match rest with
      | [] => none
      | e :: t =>
        let dec : Option Char :=
          if e = 'b' then some '\x08'
          else if e = 't' then some '\t'
          else if e = 'n' then some '\n'
          else if e = 'f' then some '\x0c'
          else if e = 'r' then some '\r'
          else if e = '"' then some '"'
          else if e = '\\' then some '\\'
          else none
        match dec with
        | some d =>
          match parseBasicStringBody t with
          | some p => some (d :: p.1, p.2)
          | none => none
        | none => none
    else if basicUnescaped c then
      match parseBasicStringBody rest with
      | some p => some (c :: p.1, p.2)
      | none => none
    else none

/-- Modelled from the spec: parse a complete TOML v1.0 basic string — an
opening quote, the body, the closing quote, and nothing after it. -/
def tomlParseBasicString (s : String) : Option String :=
  match s.toList with
  | '"' :: rest =>
    match parseBasicStringBody rest with
    | some p => if p.2 = [] then some (String.mk p.1) else none
    | none => none
  | _ => none

/-- A character whose `toml_quote` image parses back: one of the three
escaped control characters, or any scalar from `0x20` upwards other than
delete.  Backslash and quote are allowed — `toml_quote` escapes them. -/
def tomlSafeChar (c : Char) : Bool :=
  c = '\n' || c = '\r' || c = '\t' || ((0x20 ≤ c.toNat) && (c.toNat ≠ 0x7f))

/-- A concrete argument namespace for witnesses, mirroring the repository's
own test stub: a local-backend `chat` with the default MCP endpoint. -/
def argsStub : Args :=
  { command := ("chat"), repo := (""), model := (""),
    sandbox := ("workspace-write"), approval := ("on-request"),
    dangerous := false, search := false, json := false,
    skip_git_repo_check := false, resume_session_id := (""),
    resume_last := false, resume_all := false,
    codex_backend := ("local"), docker_container := ("task-app"),
    docker_workdir := ("/app"), docker_codex_binary := ("codex"),
    docker_home := (""), interactive_tty := true, no_app_mcp := false,
    app_mcp_name := ("task-management-tools"),
    app_mcp_url := ("http://localhost:8091/mcp"),
    app_mcp_bearer_env := ("") }

/-- Witness input: docker-backend `chat` with no interactive terminal. -/
def argsDockerChatNoTty : Args :=
  { argsStub with codex_backend := ("docker"), interactive_tty := false }

/-- Witness input: docker-backend `chat` with an interactive terminal. -/
def argsDockerChatTty : Args :=
  { argsStub with codex_backend := ("docker") }

/-- Witness input: docker-backend `exec`. -/
def argsDockerExec : Args :=
  { argsStub with
    command := ("exec")
    codex_backend := ("docker")
    skip_git_repo_check := true }

/-- Witness input: local-backend `resume`. -/
def argsResumeLocal : Args :=
  { argsStub with command := ("resume"), resume_last := true }

/-- Witness input: an environment where only `COS_MODEL` is set (with
whitespace padding) and every other variable is unset. -/
def witnessGetenv : String → String :=
  fun n => if n = ("COS_MODEL") then (" gpt-x ") else ("")

/-- Witness input: a global config file supplying `sandbox`. -/
def witnessGlobalCfg : List (String × String) := [(("sandbox"), ("read-only"))]

/-- Witness input: a local config file supplying `app_mcp_url`. -/
def witnessLocalCfg : List (String × String) :=
  [(("app_mcp_url"), ("http://local.example/mcp"))]

/-- Witness input: CLI overrides supplying `repo`. -/
def witnessOverrides : List (String × Option String) :=
  [(("repo"), some ("/work/repo"))]

/-- Tokenizing the empty stream yields no tokens at any fuel. -/
theorem ansiTokensAux_nil (fuel : Nat) : ansiTokensAux fuel [] = [] := by
  cases fuel <;> simp [ansiTokensAux]

/-- Rewriting the empty stream yields the empty stream at any fuel. -/
theorem applyGreenAux_nil (fuel : Nat) : applyGreenAux fuel [] = [] := by
  cases fuel <;> simp [applyGreenAux]

/-- Tokenization is lossless: concatenating the original bytes of the tokens
reproduces the input, so bytes outside matched SGR sequences are untouched. -/
theorem ansiTokensAux_text (fuel : Nat) (l : List Char) (h : l.length < fuel) :
    (ansiTokensAux fuel l).flatMap tokenText = l := by
  induction fuel generalizing l with
  | zero => exact absurd h (by omega)
  | succ fuel ih =>
    cases l with
    | nil => simp [ansiTokensAux]
    | cons c rest =>
      cases rest with
      | nil => simp [ansiTokensAux, ansiTokensAux_nil, tokenText]
      | cons c2 rest2 =>
        by_cases hesc : c = '\x1b' ∧ c2 = '['
        · obtain ⟨hc, hc2⟩ := hesc
          subst hc; subst hc2
          rcases hdw : rest2.dropWhile isSgrParamChar with _ | ⟨cm, tail⟩
          · have hlen : ('[' :: rest2).length < fuel := by
              simp at h ⊢; omega
            simp [ansiTokensAux, hdw, tokenText, ih _ hlen]
          · by_cases hm : cm = 'm'
            · subst hm
              have htail : tail.length < fuel := by
                have hle := (List.dropWhile_suffix isSgrParamChar (l := rest2)).length_le
                rw [hdw] at hle
                simp at h hle ⊢
                omega
              have hsplit : rest2.takeWhile isSgrParamChar ++ 'm' :: tail = rest2 := by
                conv_rhs =>
                  rw [← List.takeWhile_append_dropWhile (p := isSgrParamChar) (l := rest2)]
                rw [hdw]
              simp [ansiTokensAux, hdw, tokenText, ih _ htail, hsplit]
            · have hlen : ('[' :: rest2).length < fuel := by
                simp at h ⊢; omega
              simp [ansiTokensAux, hdw, hm, tokenText, ih _ hlen]
        · have hlen : (c2 :: rest2).length < fuel := by
            simp at h ⊢; omega
          simp [ansiTokensAux, hesc, tokenText, ih _ hlen]

/-- The single-pass rewrite filter equals the token view: render each token,
inserting the green sequence after the qualifying SGR matches. -/
theorem applyGreenAux_eq_tokens (fuel : Nat) (l : List Char) (h : l.length < fuel) :
    applyGreenAux fuel l = (ansiTokensAux fuel l).flatMap tokenRendered := by
  induction fuel generalizing l with
  | zero => exact absurd h (by omega)
  | succ fuel ih =>
    cases l with
    | nil => simp [ansiTokensAux, applyGreenAux]
    | cons c rest =>
      cases rest with
      | nil => simp [ansiTokensAux, applyGreenAux, ansiTokensAux_nil, applyGreenAux_nil, tokenRendered]
      | cons c2 rest2 =>
        by_cases hesc : c = '\x1b' ∧ c2 = '['
        · obtain ⟨hc, hc2⟩ := hesc
          subst hc; subst hc2
          rcases hdw : rest2.dropWhile isSgrParamChar with _ | ⟨cm, tail⟩
          · have hlen : ('[' :: rest2).length < fuel := by
              simp at h ⊢; omega
            simp [ansiTokensAux, applyGreenAux, hdw, tokenRendered, ih _ hlen]
          · by_cases hm : cm = 'm'
            · subst hm
              have htail : tail.length < fuel := by
                have hle := (List.dropWhile_suffix isSgrParamChar (l := rest2)).length_le
                rw [hdw] at hle
                simp at h hle ⊢
                omega
              simp [ansiTokensAux, applyGreenAux, hdw, tokenRendered, tokenText, ih _ htail]
            · have hlen : ('[' :: rest2).length < fuel := by
                simp at h ⊢; omega
              simp [ansiTokensAux, applyGreenAux, hdw, hm, tokenRendered, ih _ hlen]
        · have hlen : (c2 :: rest2).length < fuel := by
            simp at h ⊢; omega
          simp [ansiTokensAux, applyGreenAux, hesc, tokenRendered, ih _ hlen]

/-- C4: the rewrite filter appends the fixed bright-green sequence
immediately after each matched SGR escape sequence whose parameter list is
empty or contains one of the codes 0, 39, 37 or 97, and leaves every other
matched sequence and all non-matching bytes byte-for-byte unchanged
(tokenization is lossless and only qualifying SGR tokens gain the trailing
green sequence); in particular on the spec's two examples. -/
theorem c4_green_theme_rewrite :
    (∀ data : List Char,
      apply_green_theme_to_chunk data = (ansiTokens data).flatMap tokenRendered) ∧
    (∀ data : List Char, (ansiTokens data).flatMap tokenText = data) ∧
    apply_green_theme_to_chunk (("prefix\x1b[0mcontent").toList) =
      ("prefix\x1b[0m\x1b[32mcontent").toList ∧
    apply_green_theme_to_chunk (("\x1b[1mtext").toList) = ("\x1b[1mtext").toList := by
  refine ⟨fun data => applyGreenAux_eq_tokens _ _ (by omega),
    fun data => ansiTokensAux_text _ _ (by omega), ?_, ?_⟩ <;> decide

/-- A conditional append can be pulled out as a conditional segment. -/
theorem ite_append_absorb {c : Prop} [Decidable c] (l x : List String) :
    (if c then l ++ x else l) = l ++ (if c then x else []) := by
  split <;> simp

/-- A conditional append can be pulled out as a conditional segment (negated
condition). -/
theorem ite_append_absorb_neg {c : Prop} [Decidable c] (l x : List String) :
    (if c then l else l ++ x) = l ++ (if c then [] else x) := by
  split <;> simp

/-- `validate_mcp_server_name` succeeds with the trimmed name whenever the
trimmed name is empty or matches the pattern. -/
theorem validate_mcp_server_name_ok (name : String)
    (hm : pystrip name = ("") ∨ mcpNameFullmatch (pystrip name) = true) :
    validate_mcp_server_name name = .ok (pystrip name) := by
  unfold validate_mcp_server_name
  rcases hm with h | h
  · simp [h]
  · by_cases he : pystrip name = ("") <;> simp [he, h]

/-- The MCP-injection step appends exactly the `mcpSegment` when it does not
fail. -/
theorem mcpInjectStep_eq (args : Args) (cmd : List String)
    (hm : args.no_app_mcp = true ∨ pystrip args.app_mcp_name = ("") ∨
      mcpNameFullmatch (pystrip args.app_mcp_name) = true) :
    mcpInjectStep args cmd = .ok (cmd ++ mcpSegment args) := by
  unfold mcpInjectStep mcpSegment
  cases hb : args.no_app_mcp with
  | true => simp [hb]
  | false =>
    have hval : validate_mcp_server_name args.app_mcp_name = .ok (pystrip args.app_mcp_name) := by
      rcases hm with hno | hnm
      · rw [hb] at hno; cases hno
      · exact validate_mcp_server_name_ok _ hnm
    by_cases h1 : pystrip args.app_mcp_name ≠ ("") ∧ pystrip args.app_mcp_url ≠ ("") <;>
      by_cases h2 : pystrip args.app_mcp_bearer_env ≠ ("") <;>
      simp [hb, hval, h1, h2]

set_option maxHeartbeats 3200000 in
/-- Core structural fact about the command builder: on a valid command kind,
and when MCP validation cannot fail, `_build_inner_codex_command` succeeds
and produces exactly the spec's thirteen-item concatenation. -/
theorem build_inner_eq_spec (args : Args) (user_prompt : String) (passthrough : List String)
    (hc : args.command = ("chat") ∨ args.command = ("exec") ∨ args.command = ("resume"))
    (hm : args.no_app_mcp = true ∨ pystrip args.app_mcp_name = ("") ∨
      mcpNameFullmatch (pystrip args.app_mcp_name) = true) :
    build_inner_codex_command args user_prompt passthrough =
      .ok (innerCommandSpec args user_prompt passthrough) := by
  have hmcp : ∀ cmd, mcpInjectStep args cmd = .ok (cmd ++ mcpSegment args) :=
    fun cmd => mcpInjectStep_eq args cmd hm
  unfold build_inner_codex_command innerCommandSpec innerBinarySegment
  rcases hc with h | h | h
  · by_cases h1 : pystrip args.repo = ("") <;>
    by_cases h2 : pystrip args.model = ("") <;>
    cases hd : args.dangerous <;>
    cases hs : args.search <;>
    by_cases h4 : pystrip user_prompt = ("") <;>
    simp [h, hmcp, h1, h2, hd, hs, h4, List.append_assoc]
  · by_cases h1 : pystrip args.repo = ("") <;>
    by_cases h2 : pystrip args.model = ("") <;>
    cases hd : args.dangerous <;>
    cases hj : args.json <;>
    cases hk : args.skip_git_repo_check <;>
    by_cases h4 : pystrip user_prompt = ("") <;>
    simp [h, hmcp, h1, h2, hd, hj, hk, h4, List.append_assoc]
  · by_cases h1 : pystrip args.repo = ("") <;>
    by_cases h2 : pystrip args.model = ("") <;>
    cases hd : args.dangerous <;>
    cases hs : args.search <;>
    cases hl : args.resume_last <;>
    cases ha : args.resume_all <;>
    by_cases h3 : pystrip args.resume_session_id = ("") <;>
    by_cases h4 : pystrip user_prompt = ("") <;>
    simp [h, hmcp, h1, h2, hd, hs, hl, ha, h3, h4, List.append_assoc]

/-- `_wrap_with_docker_exec` succeeds and produces the spec's wrapper layout
whenever the container name is non-empty and, for `chat`/`resume`, an
interactive terminal is attached. -/
theorem wrap_eq_spec (args : Args) (inner : List String)
    (hcont : pystrip args.docker_container ≠ (""))
    (htty : (args.command = ("chat") ∨ args.command = ("resume")) → args.interactive_tty = true) :
    wrap_with_docker_exec args inner = .ok (dockerWrapSpec args inner) := by
  unfold wrap_with_docker_exec dockerWrapSpec
  by_cases hcr : args.command = ("chat") ∨ args.command = ("resume")
  · have ht := htty hcr
    by_cases hh : pystrip args.docker_home = ("") <;>
    by_cases hw : pystrip args.docker_workdir = ("") <;>
    simp [hcont, hcr, ht, hh, hw, List.append_assoc]
  · by_cases hh : pystrip args.docker_home = ("") <;>
    by_cases hw : pystrip args.docker_workdir = ("") <;>
    simp [hcont, hcr, hh, hw, List.append_assoc]

/-- C2: on every valid command kind, with MCP validation passing, the command
builder produces exactly the documented argument-vector order — base binary,
subcommand, `--cd`, `-m`, `--sandbox`, `--ask-for-approval` (chat/resume),
the dangerous-bypass flag, `--search` (chat/resume), the exec-only and
resume-only flags and session id, the MCP `-c` pairs, the passthrough
arguments verbatim with a leading `--` stripped, and the trimmed prompt last
when non-empty — and, being a pure function of its inputs, two invocations
on identical inputs produce identical vectors. -/
theorem c2_command_vector_order (args : Args) (user_prompt : String) (ctxArgs : List String)
    (hc : args.command = ("chat") ∨ args.command = ("exec") ∨ args.command = ("resume"))
    (hm : args.no_app_mcp = true ∨ pystrip args.app_mcp_name = ("") ∨
      mcpNameFullmatch (pystrip args.app_mcp_name) = true) :
    build_inner_codex_command args user_prompt (normalize_passthrough ctxArgs) =
      .ok (innerCommandSpec args user_prompt (normalize_passthrough ctxArgs)) ∧
    build_inner_codex_command args user_prompt (normalize_passthrough ctxArgs) =
      build_inner_codex_command args user_prompt (normalize_passthrough ctxArgs) :=
  ⟨build_inner_eq_spec args user_prompt _ hc hm, rfl⟩

/-- Witness for C2: the stub `chat` arguments with a prompt needing a trim
and a passthrough list with the `--` separator yield the concrete vector in
the documented order. -/
theorem c2_command_vector_order_witness :
    build_inner_codex_command argsStub (" hi ") (normalize_passthrough [("--"), ("-x")]) =
      .ok [("codex"), ("--sandbox"), ("workspace-write"), ("--ask-for-approval"), ("on-request"),
        ("-c"), ("mcp_servers.task-management-tools.url=\"http://localhost:8091/mcp\""),
        ("-c"), ("mcp_servers.task-management-tools.enabled=true"), ("-x"), ("hi")] :=
  ((c2_command_vector_order argsStub (" hi ") [("--"), ("-x")]
    (by decide) (by decide)).1).trans (by rfl)

/-- C3: with MCP injection enabled — a trimmed non-empty name failing the
pattern aborts the build with an error; an empty name skips injection
without error; a matching name with a non-empty URL injects exactly the two
consecutive url/enabled `-c` pairs, followed by the bearer `-c` pair exactly
when a bearer environment-variable name is configured non-empty. -/
theorem c3_mcp_injection (args : Args) (user_prompt : String) (passthrough : List String)
    (hc : args.command = ("chat") ∨ args.command = ("exec") ∨ args.command = ("resume"))
    (henabled : args.no_app_mcp = false) :
    (pystrip args.app_mcp_name ≠ ("") → mcpNameFullmatch (pystrip args.app_mcp_name) = false →
      isError (build_inner_codex_command args user_prompt passthrough) = true) ∧
    (pystrip args.app_mcp_name = ("") →
      build_inner_codex_command args user_prompt passthrough =
        .ok (innerCommandSpec args user_prompt passthrough) ∧ mcpSegment args = []) ∧
    (mcpNameFullmatch (pystrip args.app_mcp_name) = true → pystrip args.app_mcp_url ≠ ("") →
      build_inner_codex_command args user_prompt passthrough =
        .ok (innerCommandSpec args user_prompt passthrough) ∧
      mcpSegment args =
        [("-c"), ("mcp_servers.") ++ pystrip args.app_mcp_name ++ (".url=") ++
          toml_quote (pystrip args.app_mcp_url),
         ("-c"), ("mcp_servers.") ++ pystrip args.app_mcp_name ++ (".enabled=true")]
        ++ (if pystrip args.app_mcp_bearer_env ≠ ("") then
              [("-c"), ("mcp_servers.") ++ pystrip args.app_mcp_name ++
                (".bearer_token_env_var=") ++ toml_quote (pystrip args.app_mcp_bearer_env)]
            else [])) := by
  refine ⟨?_, ?_, ?_⟩
  · intro hne hbad
    have hval : validate_mcp_server_name args.app_mcp_name =
        .error (("Invalid MCP server name ") ++ pystrip args.app_mcp_name ++
          (": must match pattern ^[a-zA-Z0-9_-]+$")) := by
      unfold validate_mcp_server_name
      simp [hne, hbad]
    have hstep : ∀ cmd, mcpInjectStep args cmd =
        .error (("Invalid MCP server name ") ++ pystrip args.app_mcp_name ++
          (": must match pattern ^[a-zA-Z0-9_-]+$")) := by
      intro cmd
      unfold mcpInjectStep
      simp [henabled, hval]
    unfold build_inner_codex_command
    rcases hc with h | h | h <;> simp [h, hstep, isError]
  · intro hempty
    refine ⟨build_inner_eq_spec args user_prompt passthrough hc (Or.inr (Or.inl hempty)), ?_⟩
    simp [mcpSegment, henabled, hempty]
  · intro hfull hurl
    have hne : pystrip args.app_mcp_name ≠ ("") := by
      intro hcontra
      rw [hcontra] at hfull
      simp [mcpNameFullmatch] at hfull
    refine ⟨build_inner_eq_spec args user_prompt passthrough hc (Or.inr (Or.inr hfull)), ?_⟩
    simp [mcpSegment, henabled, hne, hurl]

/-- Witness for C3 at the stub arguments: the build succeeds and the MCP
segment is exactly the two `-c` pairs for the default endpoint, with no
bearer pair since no bearer variable is configured. -/
theorem c3_mcp_injection_witness :
    build_inner_codex_command argsStub ("p") [] = .ok (innerCommandSpec argsStub ("p") []) ∧
    mcpSegment argsStub =
      [("-c"), ("mcp_servers.task-management-tools.url=\"http://localhost:8091/mcp\""),
       ("-c"), ("mcp_servers.task-management-tools.enabled=true")] := by
  have h := (c3_mcp_injection argsStub ("p") [] (by decide) (by decide)).2.2
    (by decide) (by decide)
  exact ⟨h.1, h.2.trans (by decide)⟩

/-- C5: under the docker backend, `chat`/`resume` without an interactive
terminal make command construction fail before anything could be spawned,
and when the build goes through the `docker exec` wrapper carries the `-t`
flag exactly for `chat`/`resume` — never for `exec` — as the
`dockerWrapSpec` layout shows. -/
theorem c5_docker_tty_requirement (args : Args) (user_prompt : String) (passthrough : List String)
    (hb : pylower (pystrip args.codex_backend) = ("docker")) :
    ((args.command = ("chat") ∨ args.command = ("resume")) → args.interactive_tty = false →
      isError (build_codex_command args user_prompt passthrough) = true) ∧
    (∀ inner, build_inner_codex_command args user_prompt passthrough = .ok inner →
      pystrip args.docker_container ≠ ("") →
      ((args.command = ("chat") ∨ args.command = ("resume")) → args.interactive_tty = true) →
      build_codex_command args user_prompt passthrough = .ok (dockerWrapSpec args inner)) := by
  constructor
  · intro hcr htty
    cases hbi : build_inner_codex_command args user_prompt passthrough with
    | error e =>
      unfold build_codex_command
      rw [hbi]
      simp [isError]
    | ok cmd =>
      have hwrap : isError (wrap_with_docker_exec args cmd) = true := by
        unfold wrap_with_docker_exec
        by_cases hcont : pystrip args.docker_container = ("")
        · simp [hcont, isError]
        · simp [hcont, hcr, htty, isError]
      unfold build_codex_command
      rw [hbi]
      simp [hb]
      exact hwrap
  · intro inner hinner hcont htty
    unfold build_codex_command
    rw [hinner]
    simp [hb]
    exact wrap_eq_spec args inner hcont htty

/-- Witness for C5: docker `chat` with no terminal fails; docker `chat` with
a terminal is wrapped as `docker exec -i -t -w /app task-app …`. -/
theorem c5_docker_tty_requirement_witness :
    isError (build_codex_command argsDockerChatNoTty ("") []) = true ∧
    build_codex_command argsDockerChatTty ("") [] =
      .ok (dockerWrapSpec argsDockerChatTty (innerCommandSpec argsDockerChatTty ("") [])) := by
  constructor
  · exact (c5_docker_tty_requirement argsDockerChatNoTty ("") [] (by decide)).1
      (by decide) (by decide)
  · exact (c5_docker_tty_requirement argsDockerChatTty ("") [] (by decide)).2
      (innerCommandSpec argsDockerChatTty ("") []) (by rfl) (by decide) (by decide)

/-- C9: for the `resume` command the prompt handed to the command builder is
the resolved user prompt unchanged — no hidden instruction is composed — so
the hidden block that `chat` and `exec` always receive never reaches a
resume invocation's final positional argument, which is the trimmed user
prompt itself. -/
theorem c9_resume_prompt_passthrough (user_prompt hidden_instruction : String) (args : Args)
    (passthrough : List String)
    (hr : args.command = ("resume"))
    (hm : args.no_app_mcp = true ∨ pystrip args.app_mcp_name = ("") ∨
      mcpNameFullmatch (pystrip args.app_mcp_name) = true) :
    wrappedPrompt args.command user_prompt hidden_instruction = user_prompt ∧
    (∀ other : String, other ≠ ("resume") →
      wrappedPrompt other user_prompt hidden_instruction =
        compose_prompt hidden_instruction user_prompt) ∧
    build_inner_codex_command args
        (wrappedPrompt args.command user_prompt hidden_instruction) passthrough =
      .ok (innerCommandSpec args user_prompt passthrough) := by
  have h1 : wrappedPrompt args.command user_prompt hidden_instruction = user_prompt := by
    simp [wrappedPrompt, hr]
  refine ⟨h1, fun other hother => by simp [wrappedPrompt, hother], ?_⟩
  rw [h1]
  exact build_inner_eq_spec args user_prompt passthrough (Or.inr (Or.inr hr)) hm

/-- Witness for C9: a resume invocation forwards the user prompt as-is, for
any hidden instruction text. -/
theorem c9_resume_prompt_passthrough_witness :
    wrappedPrompt argsResumeLocal.command ("continue here") ("HIDDEN") = ("continue here") ∧
    build_inner_codex_command argsResumeLocal
        (wrappedPrompt argsResumeLocal.command ("continue here") ("HIDDEN")) [] =
      .ok (innerCommandSpec argsResumeLocal ("continue here") []) := by
  have h := c9_resume_prompt_passthrough ("continue here") ("HIDDEN") argsResumeLocal []
    (by decide) (by decide)
  exact ⟨h.1, h.2.2⟩

/-- C10: for `exec` under the docker backend the effective
skip-git-repo-check flag is forced to `true` whatever the user supplied, so
the built (wrapped) command contains `--skip-git-repo-check`; for every
other command/backend combination the effective flag equals the
user-supplied value. -/
theorem c10_skip_git_repo_check (args : Args) (user_prompt : String) (passthrough : List String)
    (skip : Bool)
    (hcmd : args.command = ("exec"))
    (hb : pylower (pystrip args.codex_backend) = ("docker"))
    (hforced : args.skip_git_repo_check =
      effective_skip_git_repo_check args.command args.codex_backend skip)
    (hcont : pystrip args.docker_container ≠ (""))
    (hm : args.no_app_mcp = true ∨ pystrip args.app_mcp_name = ("") ∨
      mcpNameFullmatch (pystrip args.app_mcp_name) = true) :
    args.skip_git_repo_check = true ∧
    build_codex_command args user_prompt passthrough =
      .ok (dockerWrapSpec args (innerCommandSpec args user_prompt passthrough)) ∧
    ("--skip-git-repo-check") ∈ dockerWrapSpec args (innerCommandSpec args user_prompt passthrough) ∧
    (∀ command backend : String, ∀ s : Bool,
      ¬(command = ("exec") ∧ pylower (pystrip backend) = ("docker")) →
      effective_skip_git_repo_check command backend s = s) := by
  have hskip : args.skip_git_repo_check = true := by
    rw [hforced]
    unfold effective_skip_git_repo_check
    simp [hcmd, hb]
  have hinner := build_inner_eq_spec args user_prompt passthrough (Or.inr (Or.inl hcmd)) hm
  have htty : (args.command = ("chat") ∨ args.command = ("resume")) → args.interactive_tty = true := by
    intro hcr
    rw [hcmd] at hcr
    rcases hcr with h | h <;> exact absurd h (by decide)
  have hwrap := wrap_eq_spec args (innerCommandSpec args user_prompt passthrough) hcont htty
  have hmem : ("--skip-git-repo-check") ∈ innerCommandSpec args user_prompt passthrough := by
    unfold innerCommandSpec
    simp [hcmd, hskip]
  refine ⟨hskip, ?_, ?_, ?_⟩
  · unfold build_codex_command
    rw [hinner]
    simp [hb]
    exact hwrap
  · unfold dockerWrapSpec
    simp [hmem]
  · intro command backend s hnot
    unfold effective_skip_git_repo_check
    simp [hnot]

/-- Witness for C10: a docker `exec` whose effective flag comes from a user
value of `false` still builds a command containing `--skip-git-repo-check`. -/
theorem c10_skip_git_repo_check_witness :
    argsDockerExec.skip_git_repo_check = true ∧
    ("--skip-git-repo-check") ∈
      dockerWrapSpec argsDockerExec (innerCommandSpec argsDockerExec ("task") []) := by
  have h := c10_skip_git_repo_check argsDockerExec ("task") [] false
    (by decide) (by decide) (by decide) (by decide) (by decide)
  exact ⟨h.1, h.2.2.1⟩

/-- C8: `compose_prompt` returns the hidden instruction alone when the user
prompt is empty after trimming, and otherwise the hidden instruction, a
blank line, the literal line `User request:` and the trimmed user prompt,
with the whole result trimmed. -/
theorem c8_compose_prompt (hidden_instruction user_prompt : String) :
    (pystrip user_prompt = ("") →
      compose_prompt hidden_instruction user_prompt = hidden_instruction) ∧
    (pystrip user_prompt ≠ ("") →
      compose_prompt hidden_instruction user_prompt =
        pystrip (hidden_instruction ++ ("\n\nUser request:\n") ++ pystrip user_prompt)) := by
  constructor <;> intro h <;> simp [compose_prompt, h]

/-- Witness for C8 at concrete inputs: a whitespace-only prompt keeps the
hidden instruction untouched, a real prompt is appended under the
`User request:` marker. -/
theorem c8_compose_prompt_witness :
    compose_prompt ("sys") ("  ") = ("sys") ∧
    compose_prompt ("sys") (" do it ") = ("sys\n\nUser request:\ndo it") := by
  constructor
  · exact (c8_compose_prompt ("sys") ("  ")).1 (by decide)
  · have h := (c8_compose_prompt ("sys") (" do it ")).2 (by decide)
    rw [h]
    decide

/-- C6: the backend-aware secondary resolution replaces `app_mcp_url` by the
docker MCP URL exactly when its provenance is `default`, replaces `repo` by
the docker workdir exactly when its provenance is `default` and its value is
still empty, leaves every other key unchanged, and does nothing at all
unless the effective `codex_backend` is `docker`. -/
theorem c6_backend_defaults (values sources : String → String) (k : String) :
    resolved_values_with_backend_defaults values sources k =
      (if pylower (pystrip (values ("codex_backend"))) = ("docker") then
        (if k = ("app_mcp_url") ∧ sources ("app_mcp_url") = ("default") then
          pystrip (values ("docker_app_mcp_url"))
        else if k = ("repo") ∧ sources ("repo") = ("default") ∧ pystrip (values ("repo")) = ("") then
          pystrip (values ("docker_workdir"))
        else values k)
      else values k) := by
  unfold resolved_values_with_backend_defaults
  by_cases hb : pylower (pystrip (values ("codex_backend"))) = ("docker")
  · by_cases h1 : sources ("app_mcp_url") = ("default") <;>
    by_cases h2 : sources ("repo") = ("default") <;>
    by_cases h3 : pystrip (values ("repo")) = ("") <;>
    by_cases hk1 : k = ("app_mcp_url") <;>
    by_cases hk2 : k = ("repo") <;>
    simp_all [updateMap]
  · simp [hb]

/-- Parsing the escaped image of a safe character list, followed by a closing
quote, recovers the list: the inductive core of the round-trip property. -/
theorem parse_escaped_body (l : List Char) (rest : List Char)
    (hl : ∀ c ∈ l, tomlSafeChar c = true) :
    parseBasicStringBody (l.flatMap escTomlChar ++ '"' :: rest) = some (l, rest) := by
  induction l with
  | nil =>
    rw [List.flatMap_nil, List.nil_append, parseBasicStringBody.eq_def]
    simp
  | cons c t ih =>
    have hc : tomlSafeChar c = true := hl c (by simp)
    have iht := ih (fun x hx => hl x (by simp [hx]))
    have hstep : (c :: t).flatMap escTomlChar ++ ('"' :: rest) =
        escTomlChar c ++ (t.flatMap escTomlChar ++ ('"' :: rest)) := by
      simp
    rw [hstep]
    generalize hL : t.flatMap escTomlChar ++ ('"' :: rest) = L at iht ⊢
    by_cases h1 : c = '\\'
    · subst h1
      rw [show escTomlChar '\\' ++ L = '\\' :: '\\' :: L from rfl,
        parseBasicStringBody.eq_def]
      simp [iht]
    · by_cases h2 : c = '"'
      · subst h2
        rw [show escTomlChar '"' ++ L = '\\' :: '"' :: L from rfl,
          parseBasicStringBody.eq_def]
        simp [iht]
      · by_cases h3 : c = '\n'
        · subst h3
          rw [show escTomlChar '\n' ++ L = '\\' :: 'n' :: L from rfl,
            parseBasicStringBody.eq_def]
          simp [iht]
        · by_cases h4 : c = '\r'
          · subst h4
            rw [show escTomlChar '\r' ++ L = '\\' :: 'r' :: L from rfl,
              parseBasicStringBody.eq_def]
            simp [iht]
          · by_cases h5 : c = '\t'
            · subst h5
              rw [show escTomlChar '\t' ++ L = '\\' :: 't' :: L from rfl,
                parseBasicStringBody.eq_def]
              simp [iht]
            · have hesc : escTomlChar c = [c] := by
                simp [escTomlChar, h1, h2, h3, h4, h5]
              have hnum : (0x20 ≤ c.toNat) ∧ (c.toNat ≠ 0x7f) := by
                revert hc
                simp [tomlSafeChar, h3, h4, h5]
              have hbu : basicUnescaped c = true := by
                simp [basicUnescaped, h1, h2, hnum.1, hnum.2]
              rw [hesc, List.cons_append, List.nil_append,
                parseBasicStringBody.eq_def]
              simp [h1, h2, hbu, iht]

/-- C7 (corrected to the characters the quoter actually protects):
`toml_quote` escapes backslash, quote, newline, carriage return and tab and
wraps in double quotes, and parsing the result back as a TOML basic string is
the identity for every string whose characters are those three escaped
control characters or any scalar from `0x20` upwards other than delete —
the characters TOML basic strings can carry at all. -/
theorem c7_toml_quote_roundtrip (s : String)
    (hs : ∀ c ∈ s.toList, tomlSafeChar c = true) :
    tomlParseBasicString (toml_quote s) = some s := by
  have hbody := parse_escaped_body s.toList [] hs
  have hlist : (toml_quote s).toList =
      '"' :: (s.toList.flatMap escTomlChar ++ '"' :: []) := by
    simp [toml_quote, String.toList]
  unfold tomlParseBasicString
  rw [hlist]
  generalize hM : s.toList.flatMap escTomlChar ++ ('"' :: []) = M at hbody ⊢
  simp [hbody]

/-- Witness for C7 at a concrete input holding a quote, a backslash and a
newline. -/
theorem c7_toml_quote_roundtrip_witness :
    tomlParseBasicString (toml_quote ("a\"b\\c\nd")) = some ("a\"b\\c\nd") :=
  c7_toml_quote_roundtrip ("a\"b\\c\nd") (by decide)

/-- Counterexample to C7 as stated: the claim quantifies over every input
string, but `toml_quote` leaves the NUL control character unescaped inside
the quotes, and a TOML basic string cannot contain an unescaped control
character, so the quote-then-parse round trip fails on `"\x00"`. -/
theorem c7_toml_quote_roundtrip_counterexample :
    tomlParseBasicString (toml_quote ("\x00")) ≠ some ("\x00") := by
  decide

/-- `_validate_value` can only succeed with the stripped input text. -/
theorem validate_value_ok {key value source t : String}
    (h : validate_value key value source = .ok t) : t = pystrip value := by
  simp only [validate_value] at h
  repeat' split at h
  all_goals cases h
  all_goals rfl

/-- A key absent from the association list has no lookup result. -/
theorem lookupKey_eq_none_of_not_mem {β : Type} (k : String)
    (pairs : List (String × β)) (h : k ∉ pairs.map Prod.fst) :
    lookupKey k pairs = none := by
  induction pairs with
  | nil => rfl
  | cons kv t ih =>
    simp only [List.map_cons, List.mem_cons, not_or] at h
    simp [lookupKey, h.1, ih h.2]

/-- Per-key effect of one file layer: a key present in the (nodup) file dict
gets its value and the layer tag, everything else is untouched. -/
theorem applyFileLayer_apply (tag : String) (pairs : List (String × String))
    (m : ResolvedMaps) (hnd : (pairs.map Prod.fst).Nodup) (k : String) :
    (∀ v, lookupKey k pairs = some v →
      (applyFileLayer tag pairs m).values k = v ∧
      (applyFileLayer tag pairs m).sources k = tag) ∧
    (lookupKey k pairs = none →
      (applyFileLayer tag pairs m).values k = m.values k ∧
      (applyFileLayer tag pairs m).sources k = m.sources k) := by
  induction pairs generalizing m with
  | nil =>
    refine ⟨fun v hv => ?_, fun _ => ⟨rfl, rfl⟩⟩
    cases hv
  | cons kv t ih =>
    have hnd2 : (t.map Prod.fst).Nodup := by
      simp only [List.map_cons, List.nodup_cons] at hnd
      exact hnd.2
    have hmem : kv.1 ∉ t.map Prod.fst := by
      simp only [List.map_cons, List.nodup_cons] at hnd
      exact hnd.1
    have happ : applyFileLayer tag (kv :: t) m =
        applyFileLayer tag t ⟨updateMap m.values kv.1 kv.2, updateMap m.sources kv.1 tag⟩ := rfl
    rw [happ]
    rcases ih ⟨updateMap m.values kv.1 kv.2, updateMap m.sources kv.1 tag⟩ hnd2 with ⟨ihs, ihn⟩
    by_cases hka : k = kv.1
    · subst hka
      have hnone : lookupKey kv.1 t = none :=
        lookupKey_eq_none_of_not_mem kv.1 t (by simpa using hmem)
      have hun := ihn hnone
      constructor
      · intro v hv
        rw [show lookupKey kv.1 (kv :: t) = some kv.2 by simp [lookupKey]] at hv
        injection hv with hv2
        subst hv2
        rw [hun.1, hun.2]
        simp [updateMap]
      · intro hfalse
        rw [show lookupKey kv.1 (kv :: t) = some kv.2 by simp [lookupKey]] at hfalse
        cases hfalse
    · have hlk : lookupKey k (kv :: t) = lookupKey k t := by
        simp [lookupKey, hka]
      rw [hlk]
      constructor
      · intro v hv
        exact ihs v hv
      · intro hnone
        have hun := ihn hnone
        rw [hun.1, hun.2]
        simp [updateMap, hka]

/-- Per-key effect of one environment step. -/
theorem envStep_ok_apply (getenv : String → String) (m m1 : ResolvedMaps) (a : String)
    (h : envStep getenv m a = .ok m1) :
    (pystrip (getenv (ENV_VAR_MAP a)) = ("") → m1 = m) ∧
    (pystrip (getenv (ENV_VAR_MAP a)) ≠ ("") →
      m1.values a = pystrip (pystrip (getenv (ENV_VAR_MAP a))) ∧
      m1.sources a = ("env") ∧
      (∀ k, k ≠ a → m1.values k = m.values k ∧ m1.sources k = m.sources k)) := by
  simp only [envStep] at h
  by_cases he : pystrip (getenv (ENV_VAR_MAP a)) = ("")
  · rw [if_pos he] at h
    injection h with h2
    exact ⟨fun _ => h2.symm, fun hne => absurd he hne⟩
  · rw [if_neg he] at h
    cases hval : validate_value a (pystrip (getenv (ENV_VAR_MAP a)))
        (("environment variable ") ++ ENV_VAR_MAP a) with
    | error e => rw [hval] at h; cases h
    | ok v =>
      rw [hval] at h
      injection h with h2
      have hv := validate_value_ok hval
      subst hv
      refine ⟨fun habs => absurd habs he, fun _ => ?_⟩
      rw [← h2]
      refine ⟨by simp [updateMap], by simp [updateMap], fun k hka => ?_⟩
      simp [updateMap, hka]

/-- Per-key effect of the whole environment fold over a nodup key list. -/
theorem envFold_apply (getenv : String → String) (ks : List String) (hnd : ks.Nodup)
    (m m2 : ResolvedMaps) (h : ks.foldlM (envStep getenv) m = .ok m2) (k : String) :
    (k ∉ ks → m2.values k = m.values k ∧ m2.sources k = m.sources k) ∧
    (k ∈ ks →
      (pystrip (getenv (ENV_VAR_MAP k)) = ("") →
        m2.values k = m.values k ∧ m2.sources k = m.sources k) ∧
      (pystrip (getenv (ENV_VAR_MAP k)) ≠ ("") →
        m2.values k = pystrip (pystrip (getenv (ENV_VAR_MAP k))) ∧
        m2.sources k = ("env"))) := by
  induction ks generalizing m with
  | nil =>
    simp only [List.foldlM_nil] at h
    injection h with h2
    subst h2
    exact ⟨fun _ => ⟨rfl, rfl⟩, fun hmem => absurd hmem (by simp)⟩
  | cons a t ih =>
    simp only [List.foldlM_cons] at h
    cases hstep : envStep getenv m a with
    | error e =>
      rw [hstep] at h
      cases h
    | ok m1 =>
      rw [hstep] at h
      replace h : t.foldlM (envStep getenv) m1 = .ok m2 := h
      have hstep2 := envStep_ok_apply getenv m m1 a hstep
      have iht := ih (List.Nodup.of_cons hnd) m1 h
      by_cases hka : k = a
      · subst hka
        have hknot : k ∉ t := by
          simp only [List.nodup_cons] at hnd
          exact hnd.1
        have hm2 := iht.1 hknot
        refine ⟨fun habs => absurd (by simp) habs, fun _ => ⟨fun hemp => ?_, fun hne => ?_⟩⟩
        · rw [hm2.1, hm2.2, hstep2.1 hemp]
          exact ⟨rfl, rfl⟩
        · obtain ⟨hv, hs, -⟩ := hstep2.2 hne
          exact ⟨hm2.1.trans hv, hm2.2.trans hs⟩
      · have hagree : m1.values k = m.values k ∧ m1.sources k = m.sources k := by
          by_cases hemp : pystrip (getenv (ENV_VAR_MAP a)) = ("")
          · rw [hstep2.1 hemp]
            exact ⟨rfl, rfl⟩
          · exact (hstep2.2 hemp).2.2 k hka
        constructor
        · intro hnot
          have hnott : k ∉ t := fun hx => hnot (List.mem_cons_of_mem _ hx)
          have hun := iht.1 hnott
          exact ⟨hun.1.trans hagree.1, hun.2.trans hagree.2⟩
        · intro hmem
          have hmemt : k ∈ t := by
            rcases List.mem_cons.mp hmem with h1 | h1
            · exact absurd h1 hka
            · exact h1
          have hin := iht.2 hmemt
          refine ⟨fun hemp => ?_, fun hne => hin.2 hne⟩
          have hun := hin.1 hemp
          exact ⟨hun.1.trans hagree.1, hun.2.trans hagree.2⟩

/-- Per-key effect of one CLI step. -/
theorem cliStep_ok_apply (m m1 : ResolvedMaps) (kv : String × Option String)
    (h : cliStep m kv = .ok m1) :
    ((kv.1 ∉ CONFIG_KEYS_LIST ∨ kv.2 = none) → m1 = m) ∧
    (∀ x, kv.1 ∈ CONFIG_KEYS_LIST → kv.2 = some x →
      m1.values kv.1 = pystrip x ∧ m1.sources kv.1 = ("cli") ∧
      (∀ k, k ≠ kv.1 → m1.values k = m.values k ∧ m1.sources k = m.sources k)) := by
  obtain ⟨k1, v1⟩ := kv
  simp only [cliStep] at h
  by_cases hc1 : k1 ∈ CONFIG_KEYS_LIST
  · rw [if_neg (by simpa using hc1)] at h
    cases v1 with
    | none =>
      replace h : Except.ok m = Except.ok m1 := h
      injection h with h3
      refine ⟨fun _ => h3.symm, fun x _ hx => ?_⟩
      cases hx
    | some raw =>
      replace h : (match validate_value k1 raw ("CLI option") with
        | Except.error e => Except.error e
        | Except.ok v =>
          Except.ok (⟨updateMap m.values k1 v, updateMap m.sources k1 ("cli")⟩ : ResolvedMaps))
          = Except.ok m1 := h
      cases hval : validate_value k1 raw ("CLI option") with
      | error e =>
        rw [hval] at h
        cases h
      | ok v =>
        rw [hval] at h
        replace h : Except.ok
            (⟨updateMap m.values k1 v, updateMap m.sources k1 ("cli")⟩ : ResolvedMaps)
            = Except.ok m1 := h
        injection h with h3
        have hv := validate_value_ok hval
        subst hv
        constructor
        · intro habs
          rcases habs with habs | habs
          · exact absurd hc1 habs
          · cases habs
        · intro x _ hx
          injection hx with hx2
          subst hx2
          rw [← h3]
          refine ⟨by simp [updateMap], by simp [updateMap], fun k hka => ?_⟩
          simp [updateMap, hka]
  · rw [if_pos (by simpa using hc1)] at h
    replace h : Except.ok m = Except.ok m1 := h
    injection h with h3
    exact ⟨fun _ => h3.symm, fun x hx _ => absurd hx hc1⟩

/-- Per-key effect of the whole CLI fold over a nodup overrides dict,
restricted to known keys. -/
theorem cliFold_apply (ov : List (String × Option String))
    (hnd : (ov.map Prod.fst).Nodup) (m m2 : ResolvedMaps)
    (h : ov.foldlM cliStep m = .ok m2) (k : String) (hk : k ∈ CONFIG_KEYS_LIST) :
    (∀ x, lookupKey k ov = some (some x) →
      m2.values k = pystrip x ∧ m2.sources k = ("cli")) ∧
    ((lookupKey k ov = none ∨ lookupKey k ov = some none) →
      m2.values k = m.values k ∧ m2.sources k = m.sources k) := by
  induction ov generalizing m with
  | nil =>
    simp only [List.foldlM_nil] at h
    injection h with h2
    subst h2
    refine ⟨fun x hx => ?_, fun _ => ⟨rfl, rfl⟩⟩
    cases hx
  | cons kv t ih =>
    simp only [List.foldlM_cons] at h
    cases hstep : cliStep m kv with
    | error e =>
      rw [hstep] at h
      cases h
    | ok m1 =>
      rw [hstep] at h
      replace h : t.foldlM cliStep m1 = .ok m2 := h
      have hstep2 := cliStep_ok_apply m m1 kv hstep
      have hnd2 : (t.map Prod.fst).Nodup := by
        simp only [List.map_cons, List.nodup_cons] at hnd
        exact hnd.2
      have hmemf : kv.1 ∉ t.map Prod.fst := by
        simp only [List.map_cons, List.nodup_cons] at hnd
        exact hnd.1
      have iht := ih hnd2 m1 h
      by_cases hka : k = kv.1
      · subst hka
        have hnone : lookupKey kv.1 t = none :=
          lookupKey_eq_none_of_not_mem kv.1 t (by simpa using hmemf)
        have hm2 := iht.2 (Or.inl hnone)
        constructor
        · intro x hx
          rw [show lookupKey kv.1 (kv :: t) = some kv.2 by simp [lookupKey]] at hx
          injection hx with hx2
          obtain ⟨hv, hs, -⟩ := hstep2.2 x hk hx2
          exact ⟨hm2.1.trans hv, hm2.2.trans hs⟩
        · intro hor
          have hkv2 : kv.2 = none := by
            rcases hor with hor | hor <;>
              rw [show lookupKey kv.1 (kv :: t) = some kv.2 by simp [lookupKey]] at hor
            · cases hor
            · injection hor
          rw [hstep2.1 (Or.inr hkv2)] at hm2
          exact hm2
      · have hlk : lookupKey k (kv :: t) = lookupKey k t := by
          simp [lookupKey, hka]
        have hagree : m1.values k = m.values k ∧ m1.sources k = m.sources k := by
          by_cases hc1 : kv.1 ∈ CONFIG_KEYS_LIST
          · cases h2 : kv.2 with
            | none =>
              rw [hstep2.1 (Or.inr h2)]
              exact ⟨rfl, rfl⟩
            | some x => exact (hstep2.2 x hc1 h2).2.2 k hka
          · rw [hstep2.1 (Or.inl hc1)]
            exact ⟨rfl, rfl⟩
        rw [hlk]
        constructor
        · intro x hx
          exact iht.1 x hx
        · intro hor
          have hun := iht.2 hor
          exact ⟨hun.1.trans hagree.1, hun.2.trans hagree.2⟩

/-- The default, file and environment layers combined resolve each known key
to `envFileOutcome`. -/
theorem envFileLayers_apply (g l : List (String × String)) (getenv : String → String)
    (hg : (g.map Prod.fst).Nodup) (hl : (l.map Prod.fst).Nodup) (m3 : ResolvedMaps)
    (henv : applyEnvLayer getenv
        (applyFileLayer ("local_config") l
          (applyFileLayer ("global_config") g ⟨DEFAULTS, fun _ => ("default")⟩)) = .ok m3)
    (k : String) (hk : k ∈ CONFIG_KEYS_LIST) :
    m3.values k = (envFileOutcome g l getenv k).1 ∧
    m3.sources k = (envFileOutcome g l getenv k).2 := by
  have hef := envFold_apply getenv CONFIG_KEYS_LIST (by decide) _ m3 henv k
  have hfg := applyFileLayer_apply ("global_config") g
    ⟨DEFAULTS, fun _ => ("default")⟩ hg k
  have hfl := applyFileLayer_apply ("local_config") l
    (applyFileLayer ("global_config") g ⟨DEFAULTS, fun _ => ("default")⟩) hl k
  unfold envFileOutcome
  by_cases hne : pystrip (getenv (ENV_VAR_MAP k)) = ("")
  · rw [if_neg (by simpa using hne)]
    have hstay := (hef.2 hk).1 hne
    rw [hstay.1, hstay.2]
    cases hll : lookupKey k l with
    | some v =>
      have := hfl.1 v hll
      rw [this.1, this.2]
      exact ⟨rfl, rfl⟩
    | none =>
      have hstay2 := hfl.2 hll
      rw [hstay2.1, hstay2.2]
      cases hlg : lookupKey k g with
      | some v =>
        have := hfg.1 v hlg
        rw [this.1, this.2]
        exact ⟨rfl, rfl⟩
      | none =>
        have hstay3 := hfg.2 hlg
        rw [hstay3.1, hstay3.2]
        exact ⟨rfl, rfl⟩
  · rw [if_pos hne]
    exact (hef.2 hk).2 hne

set_option maxHeartbeats 800000 in
/-- C1 (amended on the CLI-empty point): for every combination of layer
inputs with dict-shaped (nodup) key lists, every known key of a successful
resolution carries the value and provenance of the highest-priority layer
supplying it — defaults, then global file, then local file, then non-empty
environment variables, then CLI values that are present (not `None`); a
present-but-empty CLI value does override, storing the empty string with
provenance `cli`. -/
theorem c1_resolve_matches_highest_priority_layer
    (g l : List (String × String)) (getenv : String → String)
    (ov : List (String × Option String))
    (hg : (g.map Prod.fst).Nodup) (hl : (l.map Prod.fst).Nodup)
    (ho : (ov.map Prod.fst).Nodup) (m : ResolvedMaps)
    (h : resolve_effective_config g l getenv ov = .ok m)
    (k : String) (hk : k ∈ CONFIG_KEYS_LIST) :
    m.values k = (mergedOutcome g l getenv ov k).1 ∧
    m.sources k = (mergedOutcome g l getenv ov k).2 := by
  simp only [resolve_effective_config] at h
  cases henv : applyEnvLayer getenv
      (applyFileLayer ("local_config") l
        (applyFileLayer ("global_config") g ⟨DEFAULTS, fun _ => ("default")⟩)) with
  | error e =>
    rw [henv] at h
    cases h
  | ok m3 =>
    rw [henv] at h
    replace h : applyCliLayer ov m3 = .ok m := h
    have hcli := cliFold_apply ov ho m3 m h k hk
    have hbase := envFileLayers_apply g l getenv hg hl m3 henv k hk
    unfold mergedOutcome
    rcases hov : lookupKey k ov with _ | o
    · have hstay := hcli.2 (Or.inl hov)
      rw [hstay.1, hstay.2]
      exact hbase
    · cases o with
      | none =>
        have hstay := hcli.2 (Or.inr hov)
        rw [hstay.1, hstay.2]
        exact hbase
      | some x =>
        exact hcli.1 x hov

/-- Counterexample to C1 as stated: the claim says a CLI value that is empty
does not override, but `resolve_effective_config` skips only `None` CLI
values — passing the empty string for `repo` stores provenance `cli`, where
the claim's own resolution rule keeps provenance `default`. -/
theorem c1_claim_counterexample :
    (resolve_effective_config [] [] (fun _ => ("")) [(("repo"), some (""))]).map
        (fun m => (m.values ("repo"), m.sources ("repo"))) =
      .ok ((""), ("cli")) ∧
    claimMergedOutcome [] [] (fun _ => ("")) [(("repo"), some (""))] ("repo") =
      ((""), ("default")) ∧
    (("cli") : String) ≠ ("default") := by
  refine ⟨rfl, by decide, by decide⟩

/-- Witness for (amended) C1 on concrete layers: the global file supplies
`sandbox`, the local file supplies `app_mcp_url`, the environment supplies
`model`, the CLI supplies `repo`; each key resolves to its highest-priority
supplier with the matching provenance. -/
theorem c1_resolve_matches_highest_priority_layer_witness :
    (resolve_effective_config witnessGlobalCfg witnessLocalCfg witnessGetenv witnessOverrides).map
        (fun m => ((m.values ("model"), m.sources ("model")),
          (m.values ("sandbox"), m.sources ("sandbox")),
          (m.values ("app_mcp_url"), m.sources ("app_mcp_url")),
          (m.values ("repo"), m.sources ("repo")))) =
      .ok (((("gpt-x"), ("env"))),
        ((("read-only"), ("global_config"))),
        ((("http://local.example/mcp"), ("local_config"))),
        ((("/work/repo"), ("cli")))) := by
  cases hres : resolve_effective_config witnessGlobalCfg witnessLocalCfg witnessGetenv witnessOverrides with
  | error e =>
    have hok : isError (resolve_effective_config witnessGlobalCfg witnessLocalCfg
        witnessGetenv witnessOverrides) = false := rfl
    rw [hres] at hok
    cases hok
  | ok m =>
    have h1 := c1_resolve_matches_highest_priority_layer witnessGlobalCfg witnessLocalCfg
      witnessGetenv witnessOverrides (by decide) (by decide) (by decide) m hres ("model") (by decide)
    have h2 := c1_resolve_matches_highest_priority_layer witnessGlobalCfg witnessLocalCfg
      witnessGetenv witnessOverrides (by decide) (by decide) (by decide) m hres ("sandbox") (by decide)
    have h3 := c1_resolve_matches_highest_priority_layer witnessGlobalCfg witnessLocalCfg
      witnessGetenv witnessOverrides (by decide) (by decide) (by decide) m hres ("app_mcp_url") (by decide)
    have h4 := c1_resolve_matches_highest_priority_layer witnessGlobalCfg witnessLocalCfg
      witnessGetenv witnessOverrides (by decide) (by decide) (by decide) m hres ("repo") (by decide)
    simp only [Except.map]
    rw [h1.1, h1.2, h2.1, h2.2, h3.1, h3.2, h4.1, h4.2]
    rfl

end Cos
